import Mathlib

/-!
Shallow embedding of `src/test-files/data_processor.py` (class `DataProcessor`)
and proofs of the specified properties of its methods.

Python values are modelled by the inductive type `PyVal`, which is rich enough
to express the shapes the module can receive (absent/None, booleans, integers,
strings, lists, dicts) together with Python truthiness.  Methods of the class
are modelled in state-passing style: each takes the receiver (`self`) and
returns its result together with the receiver state after the call, so that
absence of mutation is a provable fact rather than a modelling artifact.
-/

namespace DataProcessorPy

/-- A Python value, as far as this module can observe one. -/
inductive PyVal where
  | none
  | bool (b : Bool)
  | int (n : Int)
  | str (s : String)
  | list (xs : List PyVal)
  | dict (entries : List (PyVal × PyVal))

/-- Python truthiness (`bool(v)`): `None`, `False`, `0`, `""`, `[]`, `{\x7d`
are falsy, everything else is truthy.  Used by the guard `if not raw_data`. -/
def truthy : PyVal → Bool
  | PyVal.none => false
  | PyVal.bool b => b
  | PyVal.int n => !(n == 0)
  | PyVal.str s => !s.isEmpty
  | PyVal.list xs => !xs.isEmpty
  | PyVal.dict es => !es.isEmpty

/-- What `for item in v` iterates over: a list yields its elements, a string
its one-character substrings, a dict its keys; other values raise `TypeError`
(returned as `Option.none`). -/
def pyIter : PyVal → Option (List PyVal)
  | PyVal.list xs => Option.some xs
  | PyVal.str s => Option.some (s.data.map (fun c => PyVal.str (String.singleton c)))
  | PyVal.dict es => Option.some (es.map Prod.fst)
  | _ => Option.none

/-- The only uncaught exception a non-iterable argument could raise here. -/
inductive PyError where
  | typeError

/-- The `DataProcessor` instance state: its `settings` dict. -/
structure DataProcessor where
  settings : List (PyVal × PyVal)

/-- `DataProcessor.__init__`: takes no arguments, sets `self.settings = {\x7d`. -/
def DataProcessor.init : DataProcessor := ⟨[]⟩

/-- `_validate_item(self, item)`: `return True` (state returned unchanged). -/
def _validate_item (self : DataProcessor) (item : PyVal) : Bool × DataProcessor :=
  (true, self)

/-- `_clean_item(self, item)`: `return item` (state returned unchanged). -/
def _clean_item (self : DataProcessor) (item : PyVal) : PyVal × DataProcessor :=
  (item, self)

/-- The `for item in raw_data` loop body of `process_data`, threading the
receiver state through the `_validate_item` and `_clean_item` calls and
accumulating `cleaned_data` by appending. -/
def process_loop (self : DataProcessor) (items : List PyVal) (cleaned_data : List PyVal) :
    List PyVal × DataProcessor :=
  match items with
  | [] => (cleaned_data, self)
  | item :: rest =>
      match _validate_item self item with
      | (ok, s1) =>
          if ok then
            match _clean_item s1 item with
            | (c, s2) => process_loop s2 rest (cleaned_data ++ [c])
          else
            process_loop s1 rest cleaned_data

/-- `process_data(self, raw_data)` with the final receiver state:
`if not raw_data: return []`, otherwise run the loop over the iterated
argument and return `cleaned_data`. -/
def process_data_run (self : DataProcessor) (raw_data : PyVal) :
    Except PyError (List PyVal) × DataProcessor :=
  if truthy raw_data = false then (Except.ok [], self)
  else
    match pyIter raw_data with
    | Option.some items =>
        match process_loop self items [] with
        | (res, s) => (Except.ok res, s)
    | Option.none => (Except.error PyError.typeError, self)

/-- The return value of `process_data(self, raw_data)`. -/
def process_data (self : DataProcessor) (raw_data : PyVal) : Except PyError (List PyVal) :=
  (process_data_run self raw_data).fst

/-! ### Helper lemmas -/

/-- Since `_validate_item` is constant-true and `_clean_item` is the identity,
the loop appends every item and never touches the receiver state. -/
theorem process_loop_eq (self : DataProcessor) (items acc : List PyVal) :
    process_loop self items acc = (acc ++ items, self) := by
  induction items generalizing acc with
  | nil => simp [process_loop]
  | cons item rest ih =>
      simp [process_loop, _validate_item, _clean_item, ih]

/-- On a list argument, `process_data` succeeds and returns exactly the input
elements, with the receiver state unchanged. -/
theorem process_data_run_list (p : DataProcessor) (xs : List PyVal) :
    process_data_run p (PyVal.list xs) = (Except.ok xs, p) := by
  cases xs with
  | nil => simp [process_data_run, truthy]
  | cons x rest => simp [process_data_run, truthy, pyIter, process_loop_eq]

/-! ### Claims -/

/-- C1: for every non-empty input sequence, `process_data` returns a sequence
equal to the input, with the same items in the same order and the same length
(identity pass-through: validation always succeeds and cleaning is identity). -/
theorem C1_process_data_identity (p : DataProcessor) (xs : List PyVal) (h : xs ≠ []) :
    process_data p (PyVal.list xs) = Except.ok xs := by
  simp [process_data, process_data_run_list]

theorem C1_witness :
    ([PyVal.int 1, PyVal.int 2, PyVal.int 3] ≠ ([] : List PyVal)) ∧
      process_data DataProcessor.init (PyVal.list [PyVal.int 1, PyVal.int 2, PyVal.int 3]) =
        Except.ok [PyVal.int 1, PyVal.int 2, PyVal.int 3] :=
  ⟨List.cons_ne_nil _ _,
    C1_process_data_identity DataProcessor.init [PyVal.int 1, PyVal.int 2, PyVal.int 3]
      (List.cons_ne_nil _ _)⟩

/-- C2: for an empty or absent (`None`) input, `process_data` returns the
empty sequence and leaves the receiver state unchanged (no side effects). -/
theorem C2_empty_or_absent (p : DataProcessor) :
    process_data_run p PyVal.none = (Except.ok [], p) ∧
      process_data_run p (PyVal.list []) = (Except.ok [], p) := by
  constructor <;> simp [process_data_run, truthy]

/-- C3: `process_data` is idempotent on sequences: feeding its output back in
returns that output unchanged. -/
theorem C3_idempotent (p : DataProcessor) (xs ys : List PyVal)
    (h : process_data p (PyVal.list xs) = Except.ok ys) :
    process_data p (PyVal.list ys) = Except.ok ys := by
  have hxs : process_data p (PyVal.list xs) = Except.ok xs := by
    simp [process_data, process_data_run_list]
  rw [hxs] at h
  obtain rfl : xs = ys := by injection h
  exact hxs

theorem C3_witness :
    process_data DataProcessor.init (PyVal.list [PyVal.str "a", PyVal.str "b"]) =
      Except.ok [PyVal.str "a", PyVal.str "b"] :=
  C3_idempotent DataProcessor.init [PyVal.str "a", PyVal.str "b"]
    [PyVal.str "a", PyVal.str "b"] (by rfl)

/-- C4: the output of `process_data` is a subsequence of the input (each item
unmodified, order preserved), and its length is at most the input length. -/
theorem C4_sublist (p : DataProcessor) (xs ys : List PyVal)
    (h : process_data p (PyVal.list xs) = Except.ok ys) :
    List.Sublist ys xs ∧ ys.length ≤ xs.length := by
  have hxs : process_data p (PyVal.list xs) = Except.ok xs := by
    simp [process_data, process_data_run_list]
  rw [hxs] at h
  obtain rfl : xs = ys := by injection h
  exact ⟨List.Sublist.refl xs, Nat.le_refl _⟩

theorem C4_witness :
    List.Sublist [PyVal.int 7] [PyVal.int 7] ∧
      List.length [PyVal.int 7] ≤ List.length [PyVal.int 7] :=
  C4_sublist DataProcessor.init [PyVal.int 7] [PyVal.int 7] (by rfl)

/-- C5: `_validate_item` reports every item as valid, regardless of content
(constant-true), without touching the receiver state. -/
theorem C5_validate_true (p : DataProcessor) (item : PyVal) :
    _validate_item p item = (true, p) := rfl

/-- C6: `_clean_item` returns its input unchanged (identity: no redaction,
no normalization), without touching the receiver state. -/
theorem C6_clean_identity (p : DataProcessor) (item : PyVal) :
    _clean_item p item = (item, p) := rfl

/-- C7: a call to `process_data` on any argument leaves the receiver state
(the `settings` mapping) exactly as it was before the call. -/
theorem C7_no_mutation (p : DataProcessor) (v : PyVal) :
    (process_data_run p v).snd = p := by
  unfold process_data_run
  by_cases h : truthy v = false
  · simp [h]
  · simp only [h, if_false]
    cases hi : pyIter v with
    | none => simp
    | some items => simp [process_loop_eq]

/-- C8: for every input sequence, including sequences of items of arbitrary
shape, `process_data` raises no exception: every item is treated as valid and
passed through unchanged. -/
theorem C8_no_error (p : DataProcessor) (xs : List PyVal) :
    process_data p (PyVal.list xs) = Except.ok xs := by
  simp [process_data, process_data_run_list]

/-- C9: the constructor takes no arguments and initializes the `settings`
mapping to empty; no external configuration is loaded. -/
theorem C9_init_settings : DataProcessor.init.settings = [] := rfl

/-- C10: `process_data` returns the empty sequence for every falsy argument,
not only for empty or absent sequences, because the guard `if not raw_data`
tests general Python falsiness. -/
theorem C10_falsy (p : DataProcessor) (v : PyVal) (h : truthy v = false) :
    process_data p v = Except.ok [] := by
  simp [process_data, process_data_run, h]

theorem C10_witness :
    (truthy (PyVal.int 0) = false ∧
        process_data DataProcessor.init (PyVal.int 0) = Except.ok []) ∧
      truthy (PyVal.bool false) = false ∧
        process_data DataProcessor.init (PyVal.bool false) = Except.ok [] :=
  ⟨⟨rfl, C10_falsy DataProcessor.init (PyVal.int 0) rfl⟩,
    rfl, C10_falsy DataProcessor.init (PyVal.bool false) rfl⟩

end DataProcessorPy
